import Mathlib

/-!
# PlantLog core: shallow embedding and verification

A shallow embedding of the CRUD + auth core of the PlantLog application
(`app.py`): the credential hasher (`sha256_hash`), the password policy
validator (`is_strong_password`), the auth service (`register_user`,
`login_user`, `logout`) and the log repository (`create_log`, `fetch_logs`,
`fetch_photo`, `update_log`, `delete_log`).

The relational store is modelled as explicit lists of rows; `st.session_state`
is modelled as a record of optional fields; each SQL statement is modelled by
the corresponding pure list transformation (UPDATE/DELETE act on every row
matching the WHERE clause, SELECT ... fetchone returns the first match).
Machine words inside SHA-256 are `Nat` reduced `% 2^32` at each operation.
-/

/-! ## 32-bit word helpers (for SHA-256) -/

/-- `2^32`, the modulus for 32-bit words. -/
def w32 : Nat := 4294967296

/-- 32-bit modular addition. -/
def add32 (a b : Nat) : Nat := (a + b) % w32

/-- Rotate a 32-bit word right by `n` bits. -/
def rotr32 (n x : Nat) : Nat := ((x >>> n) ||| (x <<< (32 - n))) % w32

/-- Logical right shift on a 32-bit word. -/
def shr32 (n x : Nat) : Nat := x >>> n

/-- Bitwise complement of a 32-bit word. -/
def not32 (x : Nat) : Nat := x ^^^ (w32 - 1)

/-! ## SHA-256 (the model of Python's `hashlib.sha256(...).hexdigest()`) -/

/-- SHA-256 choice function. -/
def shaCh (x y z : Nat) : Nat := (x &&& y) ^^^ (not32 x &&& z)

/-- SHA-256 majority function. -/
def shaMaj (x y z : Nat) : Nat := (x &&& y) ^^^ (x &&& z) ^^^ (y &&& z)

/-- SHA-256 big sigma 0. -/
def bigS0 (x : Nat) : Nat := rotr32 2 x ^^^ rotr32 13 x ^^^ rotr32 22 x

/-- SHA-256 big sigma 1. -/
def bigS1 (x : Nat) : Nat := rotr32 6 x ^^^ rotr32 11 x ^^^ rotr32 25 x

/-- SHA-256 small sigma 0. -/
def smallS0 (x : Nat) : Nat := rotr32 7 x ^^^ rotr32 18 x ^^^ shr32 3 x

/-- SHA-256 small sigma 1. -/
def smallS1 (x : Nat) : Nat := rotr32 17 x ^^^ rotr32 19 x ^^^ shr32 10 x

/-- The 64 SHA-256 round constants. -/
def shaK : List Nat :=
  [1116352408, 1899447441, 3049323471, 3921009573, 961987163,
   1508970993, 2453635748, 2870763221, 3624381080, 310598401,
   607225278, 1426881987, 1925078388, 2162078206, 2614888103,
   3248222580, 3835390401, 4022224774, 264347078, 604807628,
   770255983, 1249150122, 1555081692, 1996064986, 2554220882,
   2821834349, 2952996808, 3210313671, 3336571891, 3584528711,
   113926993, 338241895, 666307205, 773529912, 1294757372,
   1396182291, 1695183700, 1986661051, 2177026350, 2456956037,
   2730485921, 2820302411, 3259730800, 3345764771, 3516065817,
   3600352804, 4094571909, 275423344, 430227734, 506948616,
   659060556, 883997877, 958139571, 1322822218, 1537002063,
   1747873779, 1955562222, 2024104815, 2227730452, 2361852424,
   2428436474, 2756734187, 3204031479, 3329325298]

/-- The eight working variables / hash state words of SHA-256. -/
structure Hash8 where
  a : Nat
  b : Nat
  c : Nat
  d : Nat
  e : Nat
  f : Nat
  g : Nat
  h : Nat
deriving DecidableEq, Repr

/-- The SHA-256 initial hash value. -/
def shaH0 : Hash8 :=
  ⟨1779033703, 3144134277, 1013904242, 2773480762,
   1359893119, 2600822924, 528734635, 1541459225⟩

/-- One SHA-256 compression round, consuming a pair (round constant, schedule word). -/
def shaRound (st : Hash8) (kw : Nat × Nat) : Hash8 :=
  let t1 := add32 st.h (add32 (bigS1 st.e) (add32 (shaCh st.e st.f st.g) (add32 kw.1 kw.2)))
  let t2 := add32 (bigS0 st.a) (shaMaj st.a st.b st.c)
  ⟨add32 t1 t2, st.a, st.b, st.c, add32 st.d t1, st.e, st.f, st.g⟩

/-- Big-endian assembly of a 32-bit word from four bytes. -/
def word4 (b0 b1 b2 b3 : Nat) : Nat := b0 * 16777216 + b1 * 65536 + b2 * 256 + b3

/-- Group a byte list into big-endian 32-bit words. -/
def toWords : List Nat → List Nat
  | b0 :: b1 :: b2 :: b3 :: rest => word4 b0 b1 b2 b3 :: toWords rest
  | _ => []

/-- Extend a (reversed) message schedule by `n` further words; returns the
schedule in order once done. -/
def extendSched : Nat → List Nat → List Nat
  | 0, acc => acc.reverse
  | n + 1, acc =>
      extendSched n
        (add32 (add32 (smallS1 (acc.getD 1 0)) (acc.getD 6 0))
               (add32 (smallS0 (acc.getD 14 0)) (acc.getD 15 0)) :: acc)

/-- The 64-word message schedule of one 64-byte block. -/
def schedule (block : List Nat) : List Nat :=
  extendSched 48 (toWords block).reverse

/-- Compress one 64-byte block into the running hash state. -/
def processBlock (hs : Hash8) (block : List Nat) : Hash8 :=
  let st := (shaK.zip (schedule block)).foldl shaRound hs
  ⟨add32 hs.a st.a, add32 hs.b st.b, add32 hs.c st.c, add32 hs.d st.d,
   add32 hs.e st.e, add32 hs.f st.f, add32 hs.g st.g, add32 hs.h st.h⟩

/-- SHA-256 padding: append `0x80`, zeros, and the 64-bit big-endian bit length,
reaching a multiple of 64 bytes. -/
def shaPad (msg : List Nat) : List Nat :=
  let L := msg.length
  let k := (64 + 56 - (L + 1) % 64) % 64
  msg ++ 0x80 :: List.replicate k 0 ++
    [56, 48, 40, 32, 24, 16, 8, 0].map (fun s => ((L * 8) >>> s) % 256)

/-- Split a byte list into consecutive 64-byte blocks. -/
def toBlocks (l : List Nat) : List (List Nat) :=
  (List.range ((l.length + 63) / 64)).map (fun i => ((l.drop (64 * i)).take 64))

/-- SHA-256 of a byte list: pad, then compress each block. -/
def sha256 (msg : List Nat) : Hash8 :=
  (toBlocks (shaPad msg)).foldl processBlock shaH0

/-- UTF-8 encoding of a single code point (the model of Python's
`str.encode("utf-8")`, per character). -/
def utf8Bytes (c : Nat) : List Nat :=
  if c < 0x80 then [c]
  else if c < 0x800 then [0xc0 ||| (c >>> 6), 0x80 ||| (c &&& 0x3f)]
  else if c < 0x10000 then
    [0xe0 ||| (c >>> 12), 0x80 ||| ((c >>> 6) &&& 0x3f), 0x80 ||| (c &&& 0x3f)]
  else
    [0xf0 ||| (c >>> 18), 0x80 ||| ((c >>> 12) &&& 0x3f),
     0x80 ||| ((c >>> 6) &&& 0x3f), 0x80 ||| (c &&& 0x3f)]

/-- UTF-8 encoding of a string as a byte list. -/
def strBytes (s : String) : List Nat :=
  s.data.foldr (fun c acc => utf8Bytes c.toNat ++ acc) []

/-- Lowercase hexadecimal digit for a value below 16. -/
def hexChar (n : Nat) : Char :=
  if n < 10 then Char.ofNat (48 + n) else Char.ofNat (87 + n)

/-- Fixed-width lowercase hexadecimal rendering: exactly `w` digits. -/
def hexFixed : Nat → Nat → List Char
  | 0, _ => []
  | w + 1, n => hexFixed w (n / 16) ++ [hexChar (n % 16)]

/-- Hexadecimal digest of a hash state: eight 8-digit words, 64 characters. -/
def hexDigest (hs : Hash8) : List Char :=
  hexFixed 8 hs.a ++ hexFixed 8 hs.b ++ hexFixed 8 hs.c ++ hexFixed 8 hs.d ++
  hexFixed 8 hs.e ++ hexFixed 8 hs.f ++ hexFixed 8 hs.g ++ hexFixed 8 hs.h

/-- `sha256_hash` from app.py: `hashlib.sha256(text.encode("utf-8")).hexdigest()`. -/
def sha256_hash (text : String) : String :=
  String.mk (hexDigest (sha256 (strBytes text)))

/-- A lowercase hexadecimal digit. -/
def isHexDigit (c : Char) : Bool :=
  (decide ('0' ≤ c) && decide (c ≤ '9')) || (decide ('a' ≤ c) && decide (c ≤ 'f'))

/-! ## Password policy validator -/

/-- Matches Python's `re.search(r"[A-Z]", pw)`: a code point in 65..90. -/
def isUpperAZ (c : Char) : Bool := decide ('A' ≤ c) && decide (c ≤ 'Z')

/-- Matches Python's `re.search(r"[0-9]", pw)`: a code point in 48..57. -/
def isDigit09 (c : Char) : Bool := decide ('0' ≤ c) && decide (c ≤ '9')

/-- Matches Python's `re.search(r"[^A-Za-z0-9]", pw)`: outside all three ranges. -/
def isSpecialChar (c : Char) : Bool :=
  !(isUpperAZ c || (decide ('a' ≤ c) && decide (c ≤ 'z')) || isDigit09 c)

/-- `is_strong_password` from app.py. -/
def is_strong_password (pw : String) : Bool :=
  if pw.length < 8 then false
  else if !(pw.data.any isUpperAZ) then false
  else if !(pw.data.any isDigit09) then false
  else if !(pw.data.any isSpecialChar) then false
  else true

/-! ## Data model -/

/-- A calendar date (Python `datetime.date`), ordered lexicographically. -/
structure CalDate where
  year : Nat
  month : Nat
  day : Nat
deriving DecidableEq, Repr

/-- Date comparison, as the store orders the DATE column. -/
def dateLE (x y : CalDate) : Bool :=
  decide (x.year < y.year) ||
  (decide (x.year = y.year) &&
    (decide (x.month < y.month) ||
     (decide (x.month = y.month) && decide (x.day ≤ y.day))))

/-- A row of the `users` table. -/
structure UserRow where
  id : Nat
  email : String
  password_hash : String
deriving DecidableEq, Repr

/-- A row of the `plant_logs` table. -/
structure PlantLogRow where
  id : Nat
  user_id : Nat
  plant_name : String
  planting_date : CalDate
  season : String
  status : String
  location : String
  notes : String
  photo : Option (List Nat)
  photo_mime : Option String
deriving DecidableEq, Repr

/-- The relational store: both tables plus their AUTO_INCREMENT counters. -/
structure DB where
  users : List UserRow
  next_user_id : Nat
  plant_logs : List PlantLogRow
  next_log_id : Nat
deriving DecidableEq, Repr

/-- `st.session_state` restricted to the keys the core touches. -/
structure Session where
  user_id : Option Nat
  user_email : Option String
deriving DecidableEq, Repr

/-! ## Auth service -/

/-- `register_user` from app.py; returns the updated store with the
`(ok, message)` pair of the source. -/
def register_user (db : DB) (email password : String) : DB × Bool × String :=
  if email = "" || !(email.data.contains '@') then
    (db, false, "Enter a valid email.")
  else if !(is_strong_password password) then
    (db, false, "Password must be 8+ chars with uppercase, number, and special character.")
  else if db.users.any (fun u => u.email == email) then
    (db, false, "Email already exists. Login instead.")
  else
    ({ db with
        users := db.users ++ [⟨db.next_user_id, email, sha256_hash password⟩],
        next_user_id := db.next_user_id + 1 },
     true, "Account created. You can login now.")

/-- `login_user` from app.py; returns the updated session with the
`(ok, message)` pair of the source. -/
def login_user (db : DB) (sess : Session) (email password : String) :
    Session × Bool × String :=
  match db.users.find? (fun u => u.email == email) with
  | none => (sess, false, "User not found.")
  | some row =>
      if row.password_hash ≠ sha256_hash password then
        (sess, false, "Wrong password.")
      else
        (⟨some row.id, some email⟩, true, "Logged in.")

/-- `logout` from app.py: pops both session keys (no error when absent). -/
def logout (_sess : Session) : Session := ⟨none, none⟩

/-! ## Log repository -/

/-- `create_log` from app.py: INSERT of a new row. -/
def create_log (db : DB) (user_id : Nat) (plant_name : String) (planting_date : CalDate)
    (season status location notes : String)
    (photo_bytes : Option (List Nat)) (photo_mime : Option String) : DB :=
  { db with
      plant_logs := db.plant_logs ++
        [⟨db.next_log_id, user_id, plant_name, planting_date, season, status,
          location, notes, photo_bytes, photo_mime⟩],
      next_log_id := db.next_log_id + 1 }

/-- The `allowed_sort` dict of `fetch_logs`. -/
def allowed_sort : List (String × String) :=
  [("plant_name", "plant_name"), ("planting_date", "planting_date")]

/-- `allowed_sort.get(sort_key, "plant_name")`. -/
def sortColOf (sort_key : String) : String :=
  (allowed_sort.lookup sort_key).getD "plant_name"

/-- `"ASC" if sort_dir == "ASC" else "DESC"`. -/
def dirOf (sort_dir : String) : String :=
  if sort_dir = "ASC" then "ASC" else "DESC"

/-- The columns the `fetch_logs` SELECT projects (photo blob excluded). -/
structure FetchedRow where
  id : Nat
  plant_name : String
  planting_date : CalDate
  season : String
  status : String
  location : String
  notes : String
  photo_mime : Option String
deriving DecidableEq, Repr

/-- Projection of a stored row onto the SELECTed columns. -/
def projectRow (r : PlantLogRow) : FetchedRow :=
  ⟨r.id, r.plant_name, r.planting_date, r.season, r.status, r.location,
   r.notes, r.photo_mime⟩

/-- ASCII lowercase folding of a string (the store's case-insensitive collation). -/
def foldCase (s : String) : List Char := s.data.map Char.toLower

/-- Whether `need` occurs as a contiguous run inside `hay`. -/
def containsSub (hay need : List Char) : Bool :=
  match hay with
  | [] => need.isEmpty
  | _ :: t => need.isPrefixOf hay || containsSub t need

/-- `plant_name LIKE %search%` under the store's case-insensitive collation. -/
def likeMatch (search plant_name : String) : Bool :=
  containsSub (foldCase plant_name) (foldCase search)

/-- The WHERE clause of `fetch_logs`: owner scope, plus the LIKE filter when a
search term was given. -/
def fetchPred (user_id : Nat) (search : String) (r : PlantLogRow) : Bool :=
  r.user_id == user_id && (search == "" || likeMatch search r.plant_name)

/-- ORDER BY comparison: key column chosen by `sort_col`, flipped for DESC. -/
def rowLe (sort_col direction : String) (x y : FetchedRow) : Bool :=
  let key := fun (a b : FetchedRow) =>
    if sort_col = "planting_date" then dateLE a.planting_date b.planting_date
    else decide (a.plant_name ≤ b.plant_name)
  if direction = "ASC" then key x y else key y x

/-- Insert `a` into `l` in front of the first element not below it. -/
def insertLe (le : FetchedRow → FetchedRow → Bool) (a : FetchedRow) :
    List FetchedRow → List FetchedRow
  | [] => [a]
  | b :: bs => if le a b then a :: b :: bs else b :: insertLe le a bs

/-- Insertion sort by `le` (the model of the store's ORDER BY). -/
def sortLe (le : FetchedRow → FetchedRow → Bool) (l : List FetchedRow) :
    List FetchedRow :=
  l.foldr (insertLe le) []

/-- `fetch_logs` from app.py: owner-scoped SELECT with optional LIKE filter,
sorted by the allow-listed column and direction. -/
def fetch_logs (db : DB) (user_id : Nat) (search sort_key sort_dir : String) :
    List FetchedRow :=
  sortLe (rowLe (sortColOf sort_key) (dirOf sort_dir))
    ((db.plant_logs.filter (fetchPred user_id search)).map projectRow)

/-- `fetch_photo` from app.py: fetchone of `(photo, photo_mime)` scoped by
`id` and `user_id` in the same query. -/
def fetch_photo (db : DB) (user_id log_id : Nat) :
    Option (Option (List Nat) × Option String) :=
  (db.plant_logs.find? (fun r => r.id == log_id && r.user_id == user_id)).map
    (fun r => (r.photo, r.photo_mime))

/-- The per-row effect of the UPDATE statement of `update_log`: rows matching
the WHERE clause get the SET columns replaced, other rows are untouched. -/
def updateRow (user_id log_id : Nat) (plant_name : String) (planting_date : CalDate)
    (season status location notes : String)
    (photo_bytes : Option (List Nat)) (photo_mime : Option String)
    (replace_photo : Bool) (r : PlantLogRow) : PlantLogRow :=
  if r.id == log_id && r.user_id == user_id then
    if replace_photo then
      { r with
          plant_name := plant_name, planting_date := planting_date,
          season := season, status := status, location := location,
          notes := notes, photo := photo_bytes, photo_mime := photo_mime }
    else
      { r with
          plant_name := plant_name, planting_date := planting_date,
          season := season, status := status, location := location,
          notes := notes }
  else r

/-- `update_log` from app.py: UPDATE scoped by `id` and `user_id`; the photo
columns are in the SET list only when `replace_photo` is true. -/
def update_log (db : DB) (user_id log_id : Nat) (plant_name : String)
    (planting_date : CalDate) (season status location notes : String)
    (photo_bytes : Option (List Nat)) (photo_mime : Option String)
    (replace_photo : Bool) : DB :=
  { db with
      plant_logs := db.plant_logs.map
        (updateRow user_id log_id plant_name planting_date season status
          location notes photo_bytes photo_mime replace_photo) }

/-- `delete_log` from app.py: DELETE scoped by `id` and `user_id`. -/
def delete_log (db : DB) (user_id log_id : Nat) : DB :=
  { db with
      plant_logs := db.plant_logs.filter
        (fun r => !(r.id == log_id && r.user_id == user_id)) }

/-! ## Sample data (used by witnesses) -/

/-- An empty store. -/
def dbEmpty : DB := ⟨[], 1, [], 1⟩

/-- An empty session. -/
def sessEmpty : Session := ⟨none, none⟩

/-- A log owned by user 1. -/
def logA : PlantLogRow :=
  ⟨1, 1, "Basil", ⟨2024, 5, 1⟩, "Summer", "Seed", "Pot", "", none, none⟩

/-- A log owned by user 2. -/
def logB : PlantLogRow :=
  ⟨2, 2, "Mint", ⟨2024, 6, 2⟩, "Summer", "Sprout", "Ground", "", some [7], some "image/png"⟩

/-- A store with two users owning one log each. -/
def dbTwo : DB := ⟨[⟨1, "a@x.com", "h1"⟩, ⟨2, "b@x.com", "h2"⟩], 3, [logA, logB], 3⟩

/-! ## Helper lemmas -/

theorem hexFixed_length (w n : Nat) : (hexFixed w n).length = w := by
  induction w generalizing n with
  | zero => rfl
  | succ w ih => simp [hexFixed, ih]

theorem hexChar_isHexDigit (m : Nat) (hm : m < 16) : isHexDigit (hexChar m) = true := by
  interval_cases m <;> decide

theorem mem_hexFixed_isHexDigit (w n : Nat) (c : Char) (hc : c ∈ hexFixed w n) :
    isHexDigit c = true := by
  induction w generalizing n with
  | zero => simp [hexFixed] at hc
  | succ w ih =>
    simp only [hexFixed, List.mem_append, List.mem_singleton] at hc
    rcases hc with h | h
    · exact ih _ h
    · subst h
      exact hexChar_isHexDigit _ (Nat.mod_lt _ (by decide))

theorem mem_insertLe {le : FetchedRow → FetchedRow → Bool} {a x : FetchedRow}
    {l : List FetchedRow} (h : x ∈ insertLe le a l) : x = a ∨ x ∈ l := by
  induction l with
  | nil => simpa [insertLe] using h
  | cons b bs ih =>
    simp only [insertLe] at h
    split at h
    · simpa using h
    · rcases List.mem_cons.mp h with h | h
      · exact Or.inr (by simp [h])
      · rcases ih h with h | h
        · exact Or.inl h
        · exact Or.inr (List.mem_cons_of_mem _ h)

theorem mem_sortLe {le : FetchedRow → FetchedRow → Bool} {x : FetchedRow}
    {l : List FetchedRow} (h : x ∈ sortLe le l) : x ∈ l := by
  induction l with
  | nil => simp [sortLe] at h
  | cons b bs ih =>
    simp only [sortLe, List.foldr_cons] at h
    rcases mem_insertLe h with h | h
    · simp [h]
    · exact List.mem_cons_of_mem _ (ih h)

/-- Sanity check of the SHA-256 embedding against the official test vector. -/
theorem sha256_hash_abc :
    sha256_hash "abc" =
      "ba7816bf8f01cfea414140de5dae2223b00361a396177a9cb410ff61f20015ad" := by
  decide

/-! ## Claims -/

/-- C8: `sha256_hash` is deterministic — equal inputs give equal digests — and
for every input the digest is a 64-character lowercase hexadecimal string. -/
theorem sha256_hash_deterministic_hex (x y : String) (hxy : x = y) :
    sha256_hash x = sha256_hash y ∧ (sha256_hash x).length = 64 ∧
      ∀ c ∈ (sha256_hash x).data, isHexDigit c = true := by
  refine ⟨by rw [hxy], ?_, ?_⟩
  · show (hexDigest (sha256 (strBytes x))).length = 64
    simp [hexDigest, hexFixed_length]
  · intro c hc
    have hc : c ∈ hexDigest (sha256 (strBytes x)) := hc
    simp only [hexDigest, List.mem_append] at hc
    rcases hc with ((((((h | h) | h) | h) | h) | h) | h) | h <;>
      exact mem_hexFixed_isHexDigit _ _ _ h

theorem sha256_hash_deterministic_hex_witness :
    "Abcdef1!" = "Abcdef1!" ∧
    (sha256_hash "Abcdef1!" = sha256_hash "Abcdef1!" ∧
      (sha256_hash "Abcdef1!").length = 64 ∧
      ∀ c ∈ (sha256_hash "Abcdef1!").data, isHexDigit c = true) :=
  ⟨rfl, sha256_hash_deterministic_hex "Abcdef1!" "Abcdef1!" rfl⟩

/-- C10: `logout` clears the session user id and email unconditionally from
every session state, and doing it twice equals doing it once. -/
theorem logout_unconditional_idempotent (s : Session) :
    logout s = ⟨none, none⟩ ∧ logout (logout s) = logout s :=
  ⟨rfl, rfl⟩

/-- C5: `is_strong_password` is true exactly when the password has length at
least 8, an uppercase letter, a digit, and a character outside `[A-Za-z0-9]`;
every shorter password is rejected, `"Abcdef1!"` passes and `"abcdefgh"` fails. -/
theorem is_strong_password_spec (pw : String) :
    (is_strong_password pw = true ↔
      (8 ≤ pw.length ∧ (∃ c ∈ pw.data, isUpperAZ c = true) ∧
       (∃ c ∈ pw.data, isDigit09 c = true) ∧
       (∃ c ∈ pw.data, isSpecialChar c = true))) ∧
    (pw.length < 8 → is_strong_password pw = false) ∧
    is_strong_password "Abcdef1!" = true ∧
    is_strong_password "abcdefgh" = false := by
  refine ⟨?_, ?_, by decide, by decide⟩
  · simp only [is_strong_password]
    split_ifs with h1 h2 h3 h4 <;>
      simp_all [List.any_eq_true]
  · intro h
    simp [is_strong_password, h]

theorem is_strong_password_spec_witness :
    "abc".length < 8 ∧ is_strong_password "abc" = false :=
  ⟨by decide, (is_strong_password_spec "abc").2.1 (by decide)⟩

/-- C3: `register_user` rejects an empty or "@"-less email first, a weak
password second, a duplicate email third, and otherwise inserts a user whose
stored `password_hash` is `sha256_hash password` and succeeds. -/
theorem register_user_spec (db : DB) (email password : String) :
    ((email = "" ∨ email.data.contains '@' = false) →
       register_user db email password = (db, false, "Enter a valid email.")) ∧
    (email ≠ "" → email.data.contains '@' = true → is_strong_password password = false →
       register_user db email password =
         (db, false,
          "Password must be 8+ chars with uppercase, number, and special character.")) ∧
    (email ≠ "" → email.data.contains '@' = true → is_strong_password password = true →
       (∃ u ∈ db.users, u.email = email) →
       register_user db email password =
         (db, false, "Email already exists. Login instead.")) ∧
    (email ≠ "" → email.data.contains '@' = true → is_strong_password password = true →
       (∀ u ∈ db.users, u.email ≠ email) →
       register_user db email password =
         ({ db with
             users := db.users ++ [⟨db.next_user_id, email, sha256_hash password⟩],
             next_user_id := db.next_user_id + 1 },
          true, "Account created. You can login now.")) := by
  refine ⟨?_, ?_, ?_, ?_⟩
  · rintro (h | h)
    · simp [register_user, h]
    · simp only [List.contains, List.elem_eq_mem, decide_eq_false_iff_not] at h
      simp [register_user, h]
  · intro h1 h2 h3
    simp only [List.contains, List.elem_eq_mem, decide_eq_true_eq] at h2
    simp [register_user, h1, h2, h3]
  · intro h1 h2 h3 h4
    simp only [List.contains, List.elem_eq_mem, decide_eq_true_eq] at h2
    have : db.users.any (fun u => u.email == email) = true := by
      simpa [List.any_eq_true] using h4
    simp [register_user, h1, h2, h3, this]
  · intro h1 h2 h3 h4
    simp only [List.contains, List.elem_eq_mem, decide_eq_true_eq] at h2
    have : db.users.any (fun u => u.email == email) = false := by
      simp only [List.any_eq_false, beq_iff_eq]
      exact h4
    simp [register_user, h1, h2, h3, this]

theorem register_user_spec_witness :
    ("a@x.com" ≠ "" ∧ "a@x.com".data.contains '@' = true ∧
      is_strong_password "Abcdef1!" = true ∧ (∀ u ∈ dbEmpty.users, u.email ≠ "a@x.com")) ∧
    register_user dbEmpty "a@x.com" "Abcdef1!" =
      ({ dbEmpty with
          users := dbEmpty.users ++ [⟨dbEmpty.next_user_id, "a@x.com", sha256_hash "Abcdef1!"⟩],
          next_user_id := dbEmpty.next_user_id + 1 },
       true, "Account created. You can login now.") :=
  ⟨⟨by decide, by decide, by decide, by simp [dbEmpty]⟩,
   (register_user_spec dbEmpty "a@x.com" "Abcdef1!").2.2.2
     (by decide) (by decide) (by decide) (by simp [dbEmpty])⟩

/-- C4: `login_user` fails with "User not found." when no user row has the
email, fails with "Wrong password." when the stored digest differs from
`sha256_hash password`, otherwise succeeds and sets the session user id to
that user's id — and both failure paths return the session unchanged. -/
theorem login_user_spec (db : DB) (sess : Session) (email password : String) :
    ((∀ u ∈ db.users, u.email ≠ email) →
       login_user db sess email password = (sess, false, "User not found.")) ∧
    (∀ u, db.users.find? (fun x => x.email == email) = some u →
       u.password_hash ≠ sha256_hash password →
       login_user db sess email password = (sess, false, "Wrong password.")) ∧
    (∀ u, db.users.find? (fun x => x.email == email) = some u →
       u.password_hash = sha256_hash password →
       login_user db sess email password =
         (⟨some u.id, some email⟩, true, "Logged in.")) := by
  refine ⟨?_, ?_, ?_⟩
  · intro h
    have hf : db.users.find? (fun x => x.email == email) = none := by
      simp only [List.find?_eq_none, beq_iff_eq]
      exact h
    simp [login_user, hf]
  · intro u hu hne
    simp [login_user, hu, hne]
  · intro u hu heq
    simp [login_user, hu, heq]

theorem login_user_spec_witness :
    (∀ u ∈ dbEmpty.users, u.email ≠ "a@x.com") ∧
    login_user dbEmpty sessEmpty "a@x.com" "pw" = (sessEmpty, false, "User not found.") :=
  ⟨by simp [dbEmpty], (login_user_spec dbEmpty sessEmpty "a@x.com" "pw").1 (by simp [dbEmpty])⟩

/-- C9: `delete_log` removes exactly the rows matching both the log id and the
owner id; when no row matches it is a no-op returning the store unchanged, and
deleting twice equals deleting once. -/
theorem delete_log_spec (db : DB) (uid lid : Nat) :
    (delete_log db uid lid).plant_logs =
      db.plant_logs.filter (fun r => !(r.id == lid && r.user_id == uid)) ∧
    ((∀ r ∈ db.plant_logs, ¬(r.id = lid ∧ r.user_id = uid)) →
       delete_log db uid lid = db) ∧
    delete_log (delete_log db uid lid) uid lid = delete_log db uid lid := by
  refine ⟨rfl, ?_, ?_⟩
  · intro h
    have hf : db.plant_logs.filter (fun r => !(r.id == lid && r.user_id == uid)) =
        db.plant_logs := by
      rw [List.filter_eq_self]
      intro r hr
      have hrr := h r hr
      rw [not_and] at hrr
      by_cases hid : r.id = lid
      · have hu : r.user_id ≠ uid := hrr hid
        simp [hid, hu]
      · simp [hid]
    simp only [delete_log, hf]
  · simp [delete_log, List.filter_filter]

theorem delete_log_spec_witness :
    (∀ r ∈ dbTwo.plant_logs, ¬(r.id = 99 ∧ r.user_id = 1)) ∧
    delete_log dbTwo 1 99 = dbTwo :=
  ⟨by decide, (delete_log_spec dbTwo 1 99).2.1 (by decide)⟩

/-- C6: on a row owned by the caller, `update_log` with `replace_photo = false`
replaces the six editable fields but leaves `photo` and `photo_mime` exactly as
stored; with `replace_photo = true` it overwrites the photo columns as well. -/
theorem update_log_photo_frame (db : DB) (uid lid : Nat) (nm : String)
    (pd : CalDate) (se stt loc nts : String) (pb : Option (List Nat))
    (pm : Option String) (r : PlantLogRow) (hr : r ∈ db.plant_logs)
    (hid : r.id = lid) (hu : r.user_id = uid) :
    (∃ r' ∈ (update_log db uid lid nm pd se stt loc nts pb pm false).plant_logs,
       r'.id = r.id ∧ r'.user_id = r.user_id ∧
       r'.photo = r.photo ∧ r'.photo_mime = r.photo_mime ∧
       r'.plant_name = nm ∧ r'.planting_date = pd ∧ r'.season = se ∧
       r'.status = stt ∧ r'.location = loc ∧ r'.notes = nts) ∧
    (∃ r' ∈ (update_log db uid lid nm pd se stt loc nts pb pm true).plant_logs,
       r'.id = r.id ∧ r'.user_id = r.user_id ∧
       r'.photo = pb ∧ r'.photo_mime = pm ∧
       r'.plant_name = nm ∧ r'.planting_date = pd ∧ r'.season = se ∧
       r'.status = stt ∧ r'.location = loc ∧ r'.notes = nts) := by
  constructor
  · refine ⟨updateRow uid lid nm pd se stt loc nts pb pm false r,
      List.mem_map_of_mem _ hr, ?_⟩
    simp [updateRow, hid, hu]
  · refine ⟨updateRow uid lid nm pd se stt loc nts pb pm true r,
      List.mem_map_of_mem _ hr, ?_⟩
    simp [updateRow, hid, hu]

theorem update_log_photo_frame_witness :
    (logA ∈ dbTwo.plant_logs ∧ logA.id = 1 ∧ logA.user_id = 1) ∧
    ((∃ r' ∈ (update_log dbTwo 1 1 "Thyme" ⟨2025, 1, 2⟩ "Winter" "Growing"
          "Indoor" "note" (some [9]) (some "image/jpeg") false).plant_logs,
       r'.id = logA.id ∧ r'.user_id = logA.user_id ∧
       r'.photo = logA.photo ∧ r'.photo_mime = logA.photo_mime ∧
       r'.plant_name = "Thyme" ∧ r'.planting_date = ⟨2025, 1, 2⟩ ∧
       r'.season = "Winter" ∧ r'.status = "Growing" ∧ r'.location = "Indoor" ∧
       r'.notes = "note") ∧
     (∃ r' ∈ (update_log dbTwo 1 1 "Thyme" ⟨2025, 1, 2⟩ "Winter" "Growing"
          "Indoor" "note" (some [9]) (some "image/jpeg") true).plant_logs,
       r'.id = logA.id ∧ r'.user_id = logA.user_id ∧
       r'.photo = some [9] ∧ r'.photo_mime = some "image/jpeg" ∧
       r'.plant_name = "Thyme" ∧ r'.planting_date = ⟨2025, 1, 2⟩ ∧
       r'.season = "Winter" ∧ r'.status = "Growing" ∧ r'.location = "Indoor" ∧
       r'.notes = "note")) :=
  ⟨⟨by decide, rfl, rfl⟩,
   update_log_photo_frame dbTwo 1 1 "Thyme" ⟨2025, 1, 2⟩ "Winter" "Growing"
     "Indoor" "note" (some [9]) (some "image/jpeg") logA (by decide) rfl rfl⟩

/-- C7: `update_log` with `replace_photo = true` but no new photo supplied
(`photo_bytes = none`, `photo_mime = none`) overwrites the stored photo and
MIME type of the target row with null: the existing photo is erased. -/
theorem update_log_replace_none_erases (db : DB) (uid lid : Nat) (nm : String)
    (pd : CalDate) (se stt loc nts : String) (r : PlantLogRow)
    (hr : r ∈ db.plant_logs) (hid : r.id = lid) (hu : r.user_id = uid) :
    ∃ r' ∈ (update_log db uid lid nm pd se stt loc nts none none true).plant_logs,
      r'.id = r.id ∧ r'.user_id = r.user_id ∧
      r'.photo = none ∧ r'.photo_mime = none := by
  refine ⟨updateRow uid lid nm pd se stt loc nts none none true r,
    List.mem_map_of_mem _ hr, ?_⟩
  simp [updateRow, hid, hu]

theorem update_log_replace_none_erases_witness :
    (logB ∈ dbTwo.plant_logs ∧ logB.id = 2 ∧ logB.user_id = 2 ∧
      logB.photo = some [7] ∧ logB.photo_mime = some "image/png") ∧
    (∃ r' ∈ (update_log dbTwo 2 2 "Mint" ⟨2024, 6, 2⟩ "Summer" "Sprout"
        "Ground" "" none none true).plant_logs,
      r'.id = logB.id ∧ r'.user_id = logB.user_id ∧
      r'.photo = none ∧ r'.photo_mime = none) :=
  ⟨⟨by decide, rfl, rfl, rfl, rfl⟩,
   update_log_replace_none_erases dbTwo 2 2 "Mint" ⟨2024, 6, 2⟩ "Summer"
     "Sprout" "Ground" "" logB (by decide) rfl rfl⟩

/-- C1: a log owned by user A is invisible and untouchable as user B ≠ A even
when its id is supplied: `fetch_logs` never returns its id, `fetch_photo`
returns nothing, and `update_log` / `delete_log` leave the store unchanged —
each operation's WHERE clause pairs the row id with the owning user id. -/
theorem owner_scoping (db : DB) (A B : Nat) (r : PlantLogRow)
    (hnd : (db.plant_logs.map PlantLogRow.id).Nodup)
    (hr : r ∈ db.plant_logs) (hA : r.user_id = A) (hAB : A ≠ B) :
    (∀ s k d, ∀ fr ∈ fetch_logs db B s k d, fr.id ≠ r.id) ∧
    fetch_photo db B r.id = none ∧
    (∀ nm pd se stt loc nts pb pm rp,
       update_log db B r.id nm pd se stt loc nts pb pm rp = db) ∧
    delete_log db B r.id = db := by
  have key : ∀ x ∈ db.plant_logs, x.id = r.id → x.user_id ≠ B := by
    intro x hx hxid hxB
    have hxr : x = r := List.inj_on_of_nodup_map hnd hx hr hxid
    rw [hxr] at hxB
    exact hAB (by rw [← hA]; exact hxB)
  refine ⟨?_, ?_, ?_, ?_⟩
  · intro s k d fr hfr heq
    have hfr' : fr ∈ (db.plant_logs.filter (fetchPred B s)).map projectRow :=
      mem_sortLe hfr
    obtain ⟨x, hxf, hproj⟩ := List.mem_map.mp hfr'
    have hx := List.mem_filter.mp hxf
    have hxB : x.user_id = B := by
      have hp := hx.2
      simp only [fetchPred, Bool.and_eq_true, beq_iff_eq] at hp
      exact hp.1
    have hxid : x.id = r.id := by rw [← heq, ← hproj]; rfl
    exact key x hx.1 hxid hxB
  · have hf : db.plant_logs.find? (fun x => x.id == r.id && x.user_id == B) =
        none := by
      rw [List.find?_eq_none]
      intro x hx hpx
      simp only [Bool.and_eq_true, beq_iff_eq] at hpx
      exact key x hx hpx.1 hpx.2
    simp [fetch_photo, hf]
  · intro nm pd se stt loc nts pb pm rp
    have hmap : ∀ x ∈ db.plant_logs,
        updateRow B r.id nm pd se stt loc nts pb pm rp x = x := by
      intro x hx
      have hcond : (x.id == r.id && x.user_id == B) = false := by
        by_cases hxid : x.id = r.id
        · have hB : x.user_id ≠ B := key x hx hxid
          simp [hxid, hB]
        · simp [hxid]
      simp [updateRow, hcond]
    have hm : db.plant_logs.map
        (updateRow B r.id nm pd se stt loc nts pb pm rp) = db.plant_logs := by
      conv_rhs => rw [← List.map_id db.plant_logs]
      exact List.map_congr_left hmap
    simp only [update_log, hm]
  · have hfil : db.plant_logs.filter
        (fun x => !(x.id == r.id && x.user_id == B)) = db.plant_logs := by
      rw [List.filter_eq_self]
      intro x hx
      by_cases hxid : x.id = r.id
      · have hB : x.user_id ≠ B := key x hx hxid
        simp [hxid, hB]
      · simp [hxid]
    simp only [delete_log, hfil]

theorem owner_scoping_witness :
    ((dbTwo.plant_logs.map PlantLogRow.id).Nodup ∧ logA ∈ dbTwo.plant_logs ∧
      logA.user_id = 1 ∧ (1 : Nat) ≠ 2) ∧
    ((∀ s k d, ∀ fr ∈ fetch_logs dbTwo 2 s k d, fr.id ≠ logA.id) ∧
     fetch_photo dbTwo 2 logA.id = none ∧
     (∀ nm pd se stt loc nts pb pm rp,
        update_log dbTwo 2 logA.id nm pd se stt loc nts pb pm rp = dbTwo) ∧
     delete_log dbTwo 2 logA.id = dbTwo) :=
  ⟨⟨by decide, by decide, rfl, by decide⟩,
   owner_scoping dbTwo 1 2 logA (by decide) (by decide) rfl (by decide)⟩

/-- C2: any `sort_key` outside the allow-list {plant_name, planting_date}
makes `fetch_logs` behave exactly as `sort_key = "plant_name"`, and any
`sort_dir` other than "ASC" behaves exactly as "DESC" — the raw parameter
never shapes the query. -/
theorem fetch_logs_allowlist (db : DB) (uid : Nat) (s k d : String) :
    (k ≠ "plant_name" → k ≠ "planting_date" →
       fetch_logs db uid s k d = fetch_logs db uid s "plant_name" d) ∧
    (d ≠ "ASC" → fetch_logs db uid s k d = fetch_logs db uid s k "DESC") := by
  constructor
  · intro h1 h2
    have e1 : (k == "plant_name") = false := beq_eq_false_iff_ne.mpr h1
    have e2 : (k == "planting_date") = false := beq_eq_false_iff_ne.mpr h2
    have hcol : sortColOf k = sortColOf "plant_name" := by
      simp [sortColOf, allowed_sort, List.lookup, e1, e2]
    simp [fetch_logs, hcol]
  · intro hd
    have hdir : dirOf d = dirOf "DESC" := by simp [dirOf, hd]
    simp [fetch_logs, hdir]

theorem fetch_logs_allowlist_witness :
    ("id; DROP TABLE users" ≠ "plant_name" ∧
      "id; DROP TABLE users" ≠ "planting_date" ∧ "desc" ≠ "ASC") ∧
    fetch_logs dbTwo 1 "" "id; DROP TABLE users" "ASC" =
      fetch_logs dbTwo 1 "" "plant_name" "ASC" ∧
    fetch_logs dbTwo 1 "" "plant_name" "desc" =
      fetch_logs dbTwo 1 "" "plant_name" "DESC" :=
  ⟨⟨by decide, by decide, by decide⟩,
   (fetch_logs_allowlist dbTwo 1 "" "id; DROP TABLE users" "ASC").1
     (by decide) (by decide),
   (fetch_logs_allowlist dbTwo 1 "" "plant_name" "desc").2 (by decide)⟩
